import Mathlib

/-!
Shallow embedding of the interactive knowledge-graph subsystem of the
smart-brain frontend: the KnowledgeGraph page (user/subgraph selection
cascade, graph fetch, the vis-network rendering effect, the ingestion
upload handler), the EvidenceGraphModal mapping, and the SmartQA
conversational page.  Definitions are translated from
`src/frontend/src/pages/KnowledgeGraph.tsx`,
`src/frontend/src/pages/SmartQA.tsx` and
`src/frontend/src/components/EvidenceGraphModal.tsx`.

Conventions of the embedding:
* A nullable JS number (`number | null`) whose falsy values mean "no
  selection" is modelled as `Option Nat` (ids coming from the backend are
  positive, so falsy collapses to `none`).
* Network calls are not performed; each handler returns, next to the new
  component state, the list of requests it issues, so "no network call"
  is the statement that this list is empty (or the request `Option` is
  `none`).
* `alert`/`console.error` side effects are returned as a list of
  `KGAction`s.
* React effect semantics: after an event handler updates the state, every
  `useEffect` whose dependency tuple changed runs, in declaration order;
  if an effect itself updates state, the effects run again on the next
  render.  `flush` below performs three passes, which reaches the fixed
  point for the two data effects of KnowledgeGraph.tsx (their bodies can
  change the dependency tuples at most once, by auto-selecting a
  subgraph).  Before a `useEffect` with a cleanup is re-run, React first
  runs the cleanup registered by its previous run.
-/

namespace SmartBrain

/-- Graph node payload `{id, label, name}` of a `GraphSnapshot`; `name` is
`Option` because the JSON field may be absent.  The source reads it with JS
truthiness (`n.name || n.label`), under which an empty string also falls
back to the label. -/
structure GraphNode where
  id : Nat
  label : String
  name : Option String
deriving DecidableEq

/-- Graph edge payload `{from, to, type}` of a `GraphSnapshot`. -/
structure GraphEdge where
  «from» : Nat
  «to» : Nat
  type : String
deriving DecidableEq

/-- `GraphSnapshot`: the `{nodes, relationships}` unit returned by
`GET /api/kg/{userId}?subgraph_id={id}` and stored in `graphData`. -/
structure Snapshot where
  nodes : List GraphNode
  relationships : List GraphEdge
deriving DecidableEq

/-- Subgraph record as used by KnowledgeGraph.tsx (`{id, user_id, name}`;
`description`/`created_at` dropped as no claim mentions them). -/
structure Subgraph where
  id : Nat
  user_id : Nat
  name : String
deriving DecidableEq

/-- Render record produced by the node mapping of the vis-network effect
(KnowledgeGraph.tsx lines 84-91) and of EvidenceGraphModal.tsx lines 22-30;
the constant `font` object is omitted. -/
structure VisNode where
  id : Nat
  label : String
  group : String
  shape : String
  size : Nat
deriving DecidableEq

/-- Render record produced by the edge mapping (KnowledgeGraph.tsx lines
93-100 and EvidenceGraphModal.tsx lines 33-40); constant styling omitted. -/
structure VisEdge where
  «from» : Nat
  «to» : Nat
  label : String
  arrows : String
deriving DecidableEq

/-- JS `String.prototype.trim`, modelled structurally over the character
list (Lean's own `String.trim` is not kernel-reducible): drop leading and
trailing whitespace. -/
def jsTrim (s : String) : String :=
  ⟨((s.data.dropWhile Char.isWhitespace).reverse.dropWhile Char.isWhitespace).reverse⟩

/-- Display label of a node: `n.name || n.label` (absent or empty `name`
falls back to the internal label). -/
def displayLabel (n : GraphNode) : String :=
  match n.name with
  | some s => if s = "" then n.label else s
  | none => n.label

/-- Node mapping of the main-view effect: `id`, display label, grouping key
`n.label`, shape `dot`, size 15. -/
def toVisNode (n : GraphNode) : VisNode :=
  { id := n.id, label := displayLabel n, group := n.label, shape := "dot", size := 15 }

def toVisNodes (s : Snapshot) : List VisNode := s.nodes.map toVisNode

/-- Edge mapping of the main-view effect: a plain `map`, one record per
relationship, `arrows := to`; no deduplication of parallel edges. -/
def toVisEdge (r : GraphEdge) : VisEdge :=
  { «from» := r.«from», «to» := r.«to», label := r.type, arrows := "to" }

def toVisEdges (s : Snapshot) : List VisEdge := s.relationships.map toVisEdge

/-- Node mapping of EvidenceGraphModal (same label/group rule, size 20). -/
def evidenceVisNode (n : GraphNode) : VisNode :=
  { id := n.id, label := displayLabel n, group := n.label, shape := "dot", size := 20 }

def evidenceVisNodes (s : Snapshot) : List VisNode := s.nodes.map evidenceVisNode

/-- Edge mapping of EvidenceGraphModal: also a plain `map` (the comment in
the source mentions deduplication but none is performed). -/
def evidenceVisEdge (r : GraphEdge) : VisEdge :=
  { «from» := r.«from», «to» := r.«to», label := r.type, arrows := "to" }

def evidenceVisEdges (s : Snapshot) : List VisEdge := s.relationships.map evidenceVisEdge

/-- The node and edge `DataSet`s held by a live `vis.Network`. -/
structure VisData where
  nodes : List VisNode
  edges : List VisEdge
deriving DecidableEq

/-- A live `vis.Network` instance; `engineId` tracks object identity (each
`new vis.Network(...)` yields a fresh id). -/
structure VisEngine where
  engineId : Nat
  data : VisData
deriving DecidableEq

/-- State of the rendering effect of KnowledgeGraph.tsx: `networkRef.current`,
a counter supplying fresh engine identities, and whether
`networkContainer.current` is mounted. -/
structure VisState where
  networkRef : Option VisEngine
  nextEngineId : Nat
  containerMounted : Bool
deriving DecidableEq

/-- Body of the vis-network effect (lines 82-155): if the container is
mounted and `graphData` is non-null, either construct a new engine from the
mapped node/edge sets (when `networkRef.current` is null) or keep the
existing engine and replace its collections in place (clear, then add). -/
def visEffectBody (st : VisState) (graphData : Option Snapshot) : VisState :=
  match graphData with
  | some g =>
      if st.containerMounted then
        match st.networkRef with
        | none =>
            { st with
                networkRef := some ⟨st.nextEngineId, ⟨toVisNodes g, toVisEdges g⟩⟩,
                nextEngineId := st.nextEngineId + 1 }
        | some net =>
            { st with networkRef := some ⟨net.engineId, ⟨toVisNodes g, toVisEdges g⟩⟩ }
      else st
  | none => st

/-- Cleanup returned by the effect (lines 158-163): destroy the network and
null the ref. -/
def visCleanup (st : VisState) : VisState :=
  match st.networkRef with
  | some _ => { st with networkRef := none }
  | none => st

/-- One re-run of the effect caused by a `graphData` change.  React executes
the cleanup registered by the previous run of the effect before executing
the body again, so every re-run sees `networkRef.current = null`. -/
def visEffectStep (st : VisState) (graphData : Option Snapshot) : VisState :=
  visEffectBody (visCleanup st) graphData

/-- State of the KnowledgeGraph component (the `useState` hooks that the
claims touch). -/
structure KGState where
  selectedUserId : Option Nat
  selectedSubgraphId : Option Nat
  subgraphs : List Subgraph
  graphData : Option Snapshot
  loading : Bool
  files : List String
  textInput : String
  uploading : Bool
deriving DecidableEq

/-- A backend request issued by the component. -/
inductive KGReq where
  | fetchSubgraphs (userId : Nat)
  | fetchGraph (userId subgraphId : Nat)
  | deleteSubgraph (subgraphId : Nat)
deriving DecidableEq

/-- User-facing or console side effects of a handler. -/
inductive KGAction where
  | consoleError (msg : String)
  | alert (msg : String)
deriving DecidableEq

/-- Dependency array of the first data effect (line 67): `[selectedUserId]`. -/
def depsEffect1 (s : KGState) : Option Nat := s.selectedUserId

/-- Dependency array of the second data effect (line 78):
`[selectedUserId, selectedSubgraphId, subgraphs]`. -/
def depsEffect2 (s : KGState) : Option Nat × Option Nat × List Subgraph :=
  (s.selectedUserId, s.selectedSubgraphId, s.subgraphs)

/-- Body of the first data effect (lines 63-67): fetch the subgraph list of
the selected user. -/
def effect1 (s : KGState) : List KGReq :=
  match s.selectedUserId with
  | some u => [.fetchSubgraphs u]
  | none => []

/-- Body of the second data effect (lines 70-78): with a user and a subgraph
selected, fetch the graph (`fetchGraph` sets `loading` before the request);
with a user but no subgraph and a non-empty list, auto-select the first
subgraph and fetch its graph. -/
def effect2 (s : KGState) : KGState × List KGReq :=
  match s.selectedUserId, s.selectedSubgraphId, s.subgraphs with
  | some u, some g, _ => ({ s with loading := true }, [.fetchGraph u g])
  | some u, none, sg :: _ =>
      ({ s with selectedSubgraphId := some sg.id, loading := true },
       [.fetchGraph u sg.id])
  | _, _, _ => (s, [])

/-- One render's effect pass: each data effect runs iff its dependency tuple
changed since the previous render. -/
def flushOnce (prev cur : KGState) : KGState × List KGReq :=
  let r1 := if depsEffect1 prev = depsEffect1 cur then [] else effect1 cur
  let s2 := if depsEffect2 prev = depsEffect2 cur then (cur, ([] : List KGReq)) else effect2 cur
  (s2.1, r1 ++ s2.2)

/-- Effects run to their fixed point after a state change.  Three passes
suffice: only `effect2` can change its own dependencies, exactly once (the
`none → some` auto-select), after which dependency tuples are stable. -/
def flush (prev cur : KGState) : KGState × List KGReq :=
  let p1 := flushOnce prev cur
  let p2 := flushOnce cur p1.1
  let p3 := flushOnce p1.1 p2.1
  (p3.1, p1.2 ++ p2.2 ++ p3.2)

/-- Events driving the KnowledgeGraph component: UI selections and the
resolutions of in-flight asynchronous requests. -/
inductive KGEvent where
  | selectUser (u : Nat)
  | selectSubgraph (g : Nat)
  | subgraphListResolved (l : List Subgraph)
  | graphResolved (snap : Snapshot)
  | deleteResolved
deriving DecidableEq

def emptySnapshot : Snapshot := ⟨[], []⟩

/-- Event semantics.
* `selectUser`/`selectSubgraph`: the `onChange` handlers set the id, then
  effects flush.
* `subgraphListResolved l`: the continuation of `fetchSubgraphs` (lines
  166-175) stores the list and resets the selected subgraph to null.
* `graphResolved snap`: the continuation of `fetchGraph` (lines 177-187)
  stores the snapshot unconditionally — there is no issue-order token —
  and clears `loading`.
* `deleteResolved`: the continuation of `confirmDeleteSubgraph` after the
  DELETE succeeds (lines 256-267): set `graphData` to the empty snapshot
  and call `fetchSubgraphs` (whose own continuation arrives later as a
  `subgraphListResolved` event). -/
def applyEvent (s : KGState) (e : KGEvent) : KGState × List KGReq :=
  match e with
  | .selectUser u => flush s { s with selectedUserId := some u }
  | .selectSubgraph g => flush s { s with selectedSubgraphId := some g }
  | .subgraphListResolved l =>
      flush s { s with subgraphs := l, selectedSubgraphId := none }
  | .graphResolved snap =>
      flush s { s with graphData := some snap, loading := false }
  | .deleteResolved =>
      match s.selectedUserId with
      | some u =>
          let p := flush s { s with graphData := some emptySnapshot }
          (p.1, KGReq.fetchSubgraphs u :: p.2)
      | none => (s, [])

/-- Run a sequence of events, accumulating all issued requests. -/
def runEvents (s : KGState) (es : List KGEvent) : KGState × List KGReq :=
  es.foldl
    (fun acc e =>
      let p := applyEvent acc.1 e
      (p.1, acc.2 ++ p.2))
    (s, [])

/-- Continuation of `fetchGraph` on a network/HTTP failure (lines 182-186):
the catch block only logs to the console and the finally block clears
`loading`; `graphData` is untouched and no user-visible message is shown. -/
def fetchGraphFailed (st : KGState) : KGState × List KGAction :=
  ({ st with loading := false }, [.consoleError "Failed to fetch graph"])

/-- Whether a list of side effects contains a user-visible message (an
`alert`; the KnowledgeGraph component has no error banner state). -/
def surfacesError (acts : List KGAction) : Bool :=
  acts.any fun a =>
    match a with
    | .alert _ => true
    | .consoleError _ => false

/-- The multipart body sent by `handleUpload` to `POST /api/kg/upload/{userId}`:
all staged files, the optional text blob, and the target subgraph id. -/
structure UploadRequest where
  userId : Nat
  files : List String
  text_input : Option String
  subgraph_id : Nat
deriving DecidableEq

/-- The `handleUpload` handler (lines 217-249) up to the point where the
request is issued: it returns early (no network call) when user or subgraph
is unselected, alerts and returns when there are no files and the text is
blank, and otherwise sets `uploading` and issues the multipart request.
`text_input` is appended only when `textInput` is non-empty (untrimmed JS
truthiness). -/
def handleUpload (st : KGState) : KGState × Option UploadRequest × List KGAction :=
  match st.selectedUserId, st.selectedSubgraphId with
  | some u, some g =>
      if st.files.length == 0 && jsTrim st.textInput == "" then
        (st, none, [.alert "请上传文件或输入文本"])
      else
        ({ st with uploading := true },
         some ⟨u, st.files, if st.textInput = "" then none else some st.textInput, g⟩,
         [])
  | _, _ => (st, none, [])

/-- The `disabled` expression of the upload button (line 573). -/
def uploadDisabled (st : KGState) : Bool :=
  st.uploading || st.selectedSubgraphId.isNone ||
    (st.files.length == 0 && jsTrim st.textInput == "")

/-- Message type tag of SmartQA's `Message` interface. -/
inductive MsgType where
  | user
  | ai
deriving DecidableEq

/-- One search-strategy descriptor of the smart-qa response context. -/
structure SearchStrategy where
  query : String
  description : String
deriving DecidableEq

/-- The `context` object of a smart-qa response:
`{search_strategies[], nodes[], relationships[]}`. -/
structure QAContext where
  search_strategies : List SearchStrategy
  nodes : List GraphNode
  relationships : List GraphEdge
deriving DecidableEq

/-- SmartQA's `Message`: `{id, type, content, context?, senderName?}`. -/
structure Message where
  id : String
  type : MsgType
  content : String
  context : Option QAContext
  senderName : Option String
deriving DecidableEq

/-- SmartQA's `KnowledgeSubgraph` (fields the claims touch). -/
structure KnowledgeSubgraph where
  id : Nat
  name : String
deriving DecidableEq

/-- State of the SmartQA component. -/
structure QAState where
  messages : List Message
  question : String
  isLoading : Bool
  selectedUser : Option Nat
  subgraphs : List KnowledgeSubgraph
  selectedSubgraphs : List Nat
  error : String
deriving DecidableEq

/-- A role-tagged transcript entry of the request's `history` array. -/
structure HistEntry where
  role : String
  content : String
deriving DecidableEq

/-- The body sent by `handleSubmit` to `POST /api/kg/smart-qa/{userId}`. -/
structure QARequest where
  userId : Nat
  query : String
  subgraph_ids : List Nat
  history : List HistEntry
deriving DecidableEq

/-- Role mapping of the history entries:
`msg.type === 'user' ? 'user' : 'assistant'`. -/
def roleOf (t : MsgType) : String :=
  match t with
  | .user => "user"
  | .ai => "assistant"

/-- JS `messages.slice(-5)`: the trailing window of at most five messages,
in their original order. -/
def lastFive (l : List Message) : List Message := l.drop (l.length - 5)

/-- `messages.slice(-5).map(msg => ({role, content}))` (SmartQA.tsx lines
147-150), computed from the render's `messages` value — i.e. from the
transcript as it was before the optimistic append. -/
def mkHistory (msgs : List Message) : List HistEntry :=
  (lastFive msgs).map fun m => ⟨roleOf m.type, m.content⟩

def validationError : String := "请选择用户画像、至少一个知识子图并输入问题"

/-- The `handleSubmit` handler of SmartQA.tsx (lines 124-162) up to the
point where the request is issued.  `now` stands for `Date.now()` (the id of
the optimistic user message).  With no selected user, an empty subgraph
selection, or blank question text, it stores the validation message and
returns without appending a message or issuing a request; otherwise it
appends the user message, sets `isLoading`, clears `error` and the input,
and issues the request whose `history` is computed from the pre-submit
transcript. -/
def handleSubmit (st : QAState) (now : Nat) : QAState × Option QARequest :=
  match st.selectedUser with
  | none => ({ st with error := validationError }, none)
  | some u =>
      if st.selectedSubgraphs.length == 0 || jsTrim st.question == "" then
        ({ st with error := validationError }, none)
      else
        ({ st with
             messages := st.messages ++ [⟨toString now, .user, st.question, none, none⟩],
             isLoading := true,
             error := "",
             question := "" },
         some ⟨u, st.question, st.selectedSubgraphs, mkHistory st.messages⟩)

/-- Content of the assistant greeting preloaded into the transcript. -/
def greetingContent : String :=
  "你好！我是你的智慧助手。请选择一个\"数字分身\"并提问，我会用TA的思维逻辑回答你。"

/-- Initial `messages` state of SmartQA (lines 49-54): exactly one assistant
greeting. -/
def initialMessages : List Message :=
  [⟨"1", .ai, greetingContent, none, some "智慧助手"⟩]

/-- Initial state of the SmartQA component. -/
def initialQAState : QAState :=
  { messages := initialMessages, question := "", isLoading := false,
    selectedUser := none, subgraphs := [], selectedSubgraphs := [], error := "" }

/-- Concrete snapshot used by the evaluation theorems. -/
def snapA : Snapshot :=
  ⟨[⟨1, "Person", some "Alice"⟩], [⟨1, 1, "KNOWS"⟩]⟩

/-- A second, distinct concrete snapshot. -/
def snapB : Snapshot :=
  ⟨[⟨2, "Company", none⟩], []⟩

/-- A snapshot with two parallel edges between the same node pair. -/
def snapParallel : Snapshot :=
  ⟨[⟨1, "Person", some "Alice"⟩, ⟨2, "Company", none⟩],
   [⟨1, 2, "WORKS_AT"⟩, ⟨1, 2, "WORKS_AT"⟩]⟩

/-- A settled KnowledgeGraph state: user 1 selected, its subgraph 10
selected, two in-flight graph loads (modelled by the resolutions fed to
`runEvents`). -/
def kgRace : KGState :=
  ⟨some 1, some 10, [⟨10, 1, "Sales"⟩], none, true, [], "", false⟩

/-- A settled KnowledgeGraph state with user 1 and subgraph 10 selected and
a published snapshot. -/
def kgSettled : KGState :=
  ⟨some 1, some 10, [⟨10, 1, "Sales"⟩], some snapA, false, [], "", false⟩

/-- A settled state owning two subgraphs, with the first one selected. -/
def kgTwoSubs : KGState :=
  ⟨some 1, some 10, [⟨10, 1, "Sales"⟩, ⟨11, 1, "HR"⟩], some snapA, false, [], "", false⟩

/-- A state with user and subgraph selected but an empty pending set (no
files, whitespace-only text). -/
def kgPendingEmpty : KGState :=
  ⟨some 1, some 10, [⟨10, 1, "Sales"⟩], none, false, [], "  ", false⟩

/-- The vis effect before the first update: no engine, mounted container. -/
def vis0 : VisState := ⟨none, 0, true⟩

/-- A QA state with a seven-message transcript, ready to submit. -/
def qaSt7 : QAState :=
  { messages :=
      [⟨"1", .ai, "m1", none, none⟩, ⟨"2", .user, "m2", none, none⟩,
       ⟨"3", .ai, "m3", none, none⟩, ⟨"4", .user, "m4", none, none⟩,
       ⟨"5", .ai, "m5", none, none⟩, ⟨"6", .user, "m6", none, none⟩,
       ⟨"7", .ai, "m7", none, none⟩],
    question := "q8", isLoading := false, selectedUser := some 1,
    subgraphs := [⟨3, "Sales"⟩], selectedSubgraphs := [3], error := "" }

/-- The request `handleSubmit` issues from `qaSt7`. -/
def qaReq7 : QARequest :=
  ⟨1, "q8", [3],
   [⟨"assistant", "m3"⟩, ⟨"user", "m4"⟩, ⟨"assistant", "m5"⟩,
    ⟨"user", "m6"⟩, ⟨"assistant", "m7"⟩]⟩

/-- A QA state with a whitespace-only question and everything else valid. -/
def qaBlank : QAState :=
  { messages := initialMessages, question := "   ", isLoading := false,
    selectedUser := some 1, subgraphs := [⟨3, "Sales"⟩],
    selectedSubgraphs := [3], error := "" }

/-- The initial QA state with a user, one subgraph and a question chosen —
the first turn of a session. -/
def qaFirst : QAState :=
  { messages := initialMessages, question := "你好吗", isLoading := false,
    selectedUser := some 1, subgraphs := [⟨3, "Sales"⟩],
    selectedSubgraphs := [3], error := "" }

/-- Claim C1, evaluated on the code at the failing input.  Two graph loads
are in flight for the same view: load A is issued, then load B; B's response
(`snapB`) resolves first and A's (`snapA`) resolves after it.  The
`fetchGraph` continuation stores whichever response resolves last — there is
no issue-order token — so the published snapshot is A's result, while the
claim requires B's result to be published and A's to be discarded. -/
theorem C1_code_eval :
    (runEvents kgRace [.graphResolved snapB, .graphResolved snapA]).1.graphData
      = some snapA ∧ snapA ≠ snapB := by
  decide

/-- Claim C2, evaluated on the code at the failing input.  Starting from a
mounted container with no engine, the first update constructs engine 0; on
the second update React first runs the effect's cleanup — which destroys the
network and nulls `networkRef` — so the body constructs a fresh engine 1
instead of updating engine 0 in place: engine identity is not preserved
(the in-place clear-and-add branch is unreachable).  The collections after
the second update do equal exactly the second snapshot's mapped nodes and
edges. -/
theorem C2_code_eval :
    ((visEffectStep vis0 (some snapA)).networkRef.map VisEngine.engineId = some 0) ∧
    ((visEffectStep (visEffectStep vis0 (some snapA)) (some snapB)).networkRef.map
        VisEngine.engineId = some 1) ∧
    ((visEffectStep (visEffectStep vis0 (some snapA)) (some snapB)).networkRef.map
        VisEngine.data = some ⟨toVisNodes snapB, toVisEdges snapB⟩) := by
  decide

/-- Claim C3, evaluated on the code at the failing input.  With user 1 and
its subgraph 10 selected, selecting user 2 leaves the subgraph selection at
`some 10` — the cascading reset only happens later, in the continuation of
the subgraph-list fetch — and the second data effect immediately issues
`fetchGraph 2 10`: a graph query for the new user with the old user's
subgraph id, before any subgraph has been chosen for user 2. -/
theorem C3_code_eval :
    ((applyEvent kgSettled (.selectUser 2)).1.selectedSubgraphId = some 10) ∧
    ((applyEvent kgSettled (.selectUser 2)).2
      = [.fetchSubgraphs 2, .fetchGraph 2 10]) := by
  decide

/-- Claim C4 fails as stated: with two subgraphs 10 and 11 and subgraph 10
selected, a successful delete of subgraph 10 followed by the arrival of the
refreshed list `[11]` leaves the selection at `some 11` — auto-select picks
the first remaining subgraph — not at `UserSelected(no subgraph)`. -/
theorem C4_counterexample :
    ¬ ((runEvents kgTwoSubs
          [.deleteResolved, .subgraphListResolved [⟨11, 1, "HR"⟩]]).1.selectedSubgraphId
        = none) := by
  decide

/-- Claim C4 as amended: a successful delete of the currently selected
subgraph empties the published snapshot, issues a list refresh, and keeps the
old selection until the refreshed list arrives; at that point the list is
replaced and the selection is cleared, and auto-select immediately selects
the first entry of the refreshed list and issues its graph load (twice: once
directly and once from the effect re-run) — so the selection ends empty
exactly when the refreshed list is empty. -/
theorem C4_amended_delete (u g : Nat) (subs : List Subgraph) (gd : Option Snapshot)
    (ld : Bool) (fs : List String) (ti : String) (up : Bool) (l : List Subgraph) :
    ((applyEvent ⟨some u, some g, subs, gd, ld, fs, ti, up⟩ .deleteResolved).1.graphData
        = some emptySnapshot) ∧
    ((applyEvent ⟨some u, some g, subs, gd, ld, fs, ti, up⟩ .deleteResolved).2
        = [.fetchSubgraphs u]) ∧
    ((applyEvent ⟨some u, some g, subs, gd, ld, fs, ti, up⟩ .deleteResolved).1.selectedSubgraphId
        = some g) ∧
    ((applyEvent (applyEvent ⟨some u, some g, subs, gd, ld, fs, ti, up⟩ .deleteResolved).1
        (.subgraphListResolved l)).1.subgraphs = l) ∧
    ((applyEvent (applyEvent ⟨some u, some g, subs, gd, ld, fs, ti, up⟩ .deleteResolved).1
        (.subgraphListResolved l)).1.selectedSubgraphId = l.head?.map Subgraph.id) ∧
    ((applyEvent (applyEvent ⟨some u, some g, subs, gd, ld, fs, ti, up⟩ .deleteResolved).1
        (.subgraphListResolved l)).2
      = match l.head? with
        | none => []
        | some sg => [.fetchGraph u sg.id, .fetchGraph u sg.id]) := by
  cases l <;>
    simp [applyEvent, flush, flushOnce, depsEffect1, depsEffect2, effect1, effect2,
      emptySnapshot]

/-- Helper: whenever `handleSubmit` issues a request, its history is the
role-tagged window over the pre-submit transcript. -/
theorem handleSubmit_some_history (st : QAState) (now : Nat) (r : QARequest)
    (hr : (handleSubmit st now).2 = some r) :
    r.history = mkHistory st.messages := by
  unfold handleSubmit at hr
  cases hu : st.selectedUser with
  | none => simp [hu] at hr
  | some u =>
      simp only [hu] at hr
      by_cases hcond : (st.selectedSubgraphs.length == 0 || jsTrim st.question == "") = true
      · simp [hcond] at hr
      · simp only [hcond, Bool.false_eq_true, if_false, Option.some.injEq] at hr
        subst hr
        rfl

/-- Claim C5: whenever `handleSubmit` issues a backend request, the request
carries the question and the selected subgraph id set together with a
trailing window of at most five prior messages, in their original
(oldest-first) order, each mapped to a role-tagged entry; the history is
taken from the pre-submit transcript while the optimistic user message for
the current question is appended afterwards, so that message is not part of
the window. -/
theorem C5_history_window (st : QAState) (now : Nat) (r : QARequest)
    (hr : (handleSubmit st now).2 = some r) :
    r.history = (st.messages.drop (st.messages.length - 5)).map
        (fun m => ⟨roleOf m.type, m.content⟩) ∧
    r.history.length ≤ 5 ∧
    r.query = st.question ∧
    r.subgraph_ids = st.selectedSubgraphs ∧
    (handleSubmit st now).1.messages
      = st.messages ++ [⟨toString now, MsgType.user, st.question, none, none⟩] := by
  unfold handleSubmit at hr ⊢
  cases hu : st.selectedUser with
  | none => simp [hu] at hr
  | some u =>
      simp only [hu] at hr ⊢
      by_cases hcond : (st.selectedSubgraphs.length == 0 || jsTrim st.question == "") = true
      · simp [hcond] at hr
      · simp only [hcond, Bool.false_eq_true, if_false, Option.some.injEq] at hr
        subst hr
        refine ⟨rfl, ?_, rfl, rfl, by simp [hcond]⟩
        simp only [mkHistory, lastFive, List.length_map, List.length_drop]
        omega

/-- Witness for C5 at a concrete seven-message transcript: the issued
history is the last five messages, oldest first, role-tagged. -/
theorem C5_history_window_witness :
    (handleSubmit qaSt7 100).2 = some qaReq7 ∧
    qaReq7.history = (qaSt7.messages.drop (qaSt7.messages.length - 5)).map
        (fun m => ⟨roleOf m.type, m.content⟩) ∧
    qaReq7.history.length ≤ 5 :=
  ⟨rfl, (C5_history_window qaSt7 100 qaReq7 rfl).1,
    (C5_history_window qaSt7 100 qaReq7 rfl).2.1⟩

/-- Claim C6: a turn attempted with no selected user, an empty selected
subgraph set, or blank (whitespace-only) question text is rejected locally:
the validation message is stored and nothing else changes — in particular no
message is appended — and no request is issued. -/
theorem C6_local_rejection (st : QAState) (now : Nat)
    (h : st.selectedUser = none ∨ st.selectedSubgraphs = [] ∨ jsTrim st.question = "") :
    (handleSubmit st now).2 = none ∧
    (handleSubmit st now).1 = { st with error := validationError } := by
  unfold handleSubmit
  rcases h with h | h | h
  · simp [h]
  · cases st.selectedUser <;> simp [h]
  · cases st.selectedUser <;> simp [h]

/-- Witness for C6 at a whitespace-only question with everything else valid:
the submit is rejected with no request. -/
theorem C6_local_rejection_witness :
    jsTrim qaBlank.question = "" ∧ (handleSubmit qaBlank 5).2 = none ∧
    (handleSubmit qaBlank 5).1.messages = qaBlank.messages :=
  ⟨by decide, (C6_local_rejection qaBlank 5 (Or.inr (Or.inr (by decide)))).1,
    by rw [(C6_local_rejection qaBlank 5 (Or.inr (Or.inr (by decide)))).2]⟩

/-- Claim C7: `handleUpload` is a local no-op — no upload request, state
unchanged — whenever no target subgraph is selected or the pending set is
empty (no staged files and blank text); the upload button is disabled in the
same situations. -/
theorem C7_upload_rejection (st : KGState)
    (h : st.selectedSubgraphId = none ∨ (st.files = [] ∧ jsTrim st.textInput = "")) :
    (handleUpload st).2.1 = none ∧ (handleUpload st).1 = st ∧
    uploadDisabled st = true := by
  rcases h with h | ⟨h1, h2⟩
  · cases hu : st.selectedUserId <;> simp [handleUpload, uploadDisabled, h, hu]
  · cases hu : st.selectedUserId <;> cases hg : st.selectedSubgraphId <;>
      simp [handleUpload, uploadDisabled, hu, hg, h1, h2]

/-- Witness for C7 at a state with user and subgraph selected but no files
and whitespace-only text: no request is issued and the button is disabled. -/
theorem C7_upload_rejection_witness :
    (kgPendingEmpty.files = [] ∧ jsTrim kgPendingEmpty.textInput = "") ∧
    (handleUpload kgPendingEmpty).2.1 = none ∧
    uploadDisabled kgPendingEmpty = true :=
  ⟨by decide, (C7_upload_rejection kgPendingEmpty (Or.inr (by decide))).1,
    (C7_upload_rejection kgPendingEmpty (Or.inr (by decide))).2.2⟩

/-- Claim C8 fails as stated at this input: the failure continuation of
`fetchGraph` emits only a console log — no alert, and the component has no
error-banner state — so the error is not surfaced as a user-visible
message. -/
theorem C8_counterexample :
    surfacesError (fetchGraphFailed kgSettled).2 = false ∧
    (fetchGraphFailed kgSettled).2 = [.consoleError "Failed to fetch graph"] := by
  decide

/-- Claim C8 as amended: a graph load that fails with a network or HTTP
error leaves the store's state unchanged — the previously published
snapshot, the selection and the list are preserved, only the `loading` flag
is cleared — but the error is not surfaced to the user: the handler emits
exactly one console log and no user-visible message. -/
theorem C8_amended_failure (st : KGState) :
    (fetchGraphFailed st).1 = { st with loading := false } ∧
    (fetchGraphFailed st).1.graphData = st.graphData ∧
    (fetchGraphFailed st).1.selectedSubgraphId = st.selectedSubgraphId ∧
    (fetchGraphFailed st).1.subgraphs = st.subgraphs ∧
    (fetchGraphFailed st).2 = [.consoleError "Failed to fetch graph"] ∧
    surfacesError (fetchGraphFailed st).2 = false :=
  ⟨rfl, rfl, rfl, rfl, rfl, rfl⟩

/-- Claim C9: in both the main view and the evidence modal, a node's render
record has display label `name` with fallback to the internal label when the
name is absent (or empty, per JS truthiness) and grouping key `label`; the
edge mappings are positional one-to-one — entry `i` of the rendered edges is
exactly the image of relationship `i`, so parallel edges are preserved and
the rendered edge count equals the relationship count exactly. -/
theorem C9_render_mapping (s : Snapshot) (n : GraphNode) (i : Nat) :
    (toVisEdges s).length = s.relationships.length ∧
    (evidenceVisEdges s).length = s.relationships.length ∧
    (toVisEdges s).get? i = (s.relationships.get? i).map toVisEdge ∧
    (evidenceVisEdges s).get? i = (s.relationships.get? i).map evidenceVisEdge ∧
    (toVisNode n).group = n.label ∧
    (evidenceVisNode n).group = n.label ∧
    (n.name = none → (toVisNode n).label = n.label) ∧
    (n.name = some "" → (toVisNode n).label = n.label) ∧
    (∀ nm, n.name = some nm → nm ≠ "" → (toVisNode n).label = nm) ∧
    (evidenceVisNode n).label = (toVisNode n).label := by
  refine ⟨?_, ?_, ?_, ?_, rfl, rfl, ?_, ?_, ?_, rfl⟩
  · simp [toVisEdges]
  · simp [evidenceVisEdges]
  · simp [toVisEdges]
  · simp [evidenceVisEdges]
  · intro h; simp [toVisNode, displayLabel, h]
  · intro h; simp [toVisNode, displayLabel, h]
  · intro nm h hne; simp [toVisNode, displayLabel, h, hne]

/-- Witness for C9 at a snapshot with two parallel edges and a node without
a name: counts match and the fallback label is the internal label. -/
theorem C9_render_mapping_witness :
    (toVisEdges snapParallel).length = snapParallel.relationships.length ∧
    ((⟨2, "Company", none⟩ : GraphNode).name = none →
      (toVisNode ⟨2, "Company", none⟩).label = "Company") := by
  have h := C9_render_mapping snapParallel ⟨2, "Company", none⟩ 0
  exact ⟨h.1, fun hn => h.2.2.2.2.2.2.1 hn⟩

/-- Claim C10: the initial transcript holds exactly one message — the
assistant greeting — and consequently the history window of the first
submitted turn is exactly one entry, role `assistant`, with the greeting's
content. -/
theorem C10_initial_greeting (st : QAState) (now : Nat) (r : QARequest)
    (hm : st.messages = initialMessages)
    (hr : (handleSubmit st now).2 = some r) :
    initialQAState.messages.length = 1 ∧
    initialQAState.messages.map Message.type = [MsgType.ai] ∧
    initialQAState.messages.map Message.content = [greetingContent] ∧
    r.history = [⟨"assistant", greetingContent⟩] := by
  refine ⟨rfl, rfl, rfl, ?_⟩
  have h5 := handleSubmit_some_history st now r hr
  rw [h5, hm]
  rfl

/-- Witness for C10: the first turn submitted from the initial state carries
exactly the greeting as history. -/
theorem C10_initial_greeting_witness :
    (handleSubmit qaFirst 2).2
      = some ⟨1, "你好吗", [3], [⟨"assistant", greetingContent⟩]⟩ ∧
    (⟨1, "你好吗", [3], [⟨"assistant", greetingContent⟩]⟩ : QARequest).history
      = [⟨"assistant", greetingContent⟩] :=
  ⟨rfl, (C10_initial_greeting qaFirst 2 _ rfl rfl).2.2.2⟩

end SmartBrain
